import Mathlib

/-!
Verification development for the DocReader repository.

The repository has two source files:
* `main.py` — class `UnifiedFileReader`: an extension-keyed dispatcher
  (`read_file`) over per-format readers, plus an exporter (`write_output`).
* `one.py` — a superseded ("legacy") `read_file` that returns file contents
  or sentinel message strings.

The embedding below is shallow: Python dicts become association lists with
Python's insert-or-overwrite semantics, the file system and the third-party
parsing libraries become an explicit environment record (`Env`), exceptions
become an `Except PyErr` result, and the in-place mutation done by
`write_output` becomes explicit state passing (the function returns the
record as it is left after the call, together with the JSON value written).
`os.path.splitext`, `os.path.basename` (POSIX) and `str.splitlines` are
translated from their CPython definitions.
-/

namespace DocReader

/-- JSON-like values (what Python passes to and gets from `json`). Objects
are association lists in insertion order. -/
inductive Value where
  | null : Value
  | bool (b : Bool) : Value
  | num (n : Int) : Value
  | str (s : String) : Value
  | arr (xs : List Value) : Value
  | obj (fields : List (String × Value)) : Value

/-- The `{"file_name": ..., "content": ...}` envelope returned by every
reader in `main.py`. -/
structure FileRecord where
  file_name : String
  content : Value

/-- Python exceptions that the modelled code can signal.
`valueError` is `ValueError` raised by the code itself; `fileNotFound` is
`FileNotFoundError` from `open`; `parseError` stands for the foreign
`xml.etree.ElementTree.ParseError` escaping unwrapped (never produced by
the modelled code, present so that "the parse exception does not escape"
is expressible); `libraryError` is any other third-party exception
propagating uncaught. -/
inductive PyErr where
  | valueError (msg : String) : PyErr
  | fileNotFound : PyErr
  | parseError (msg : String) : PyErr
  | libraryError (msg : String) : PyErr

/-- An `xml.etree.ElementTree` element: tag, attributes, text, children. -/
inductive XmlElem where
  | mk (tag : String) (attrib : List (String × String))
       (text : Option String) (children : List XmlElem) : XmlElem

def XmlElem.tag : XmlElem → String
  | .mk t _ _ _ => t

def XmlElem.attrib : XmlElem → List (String × String)
  | .mk _ a _ _ => a

def XmlElem.text : XmlElem → Option String
  | .mk _ _ t _ => t

def XmlElem.children : XmlElem → List XmlElem
  | .mk _ _ _ c => c

/-- A python-pptx shape: only `has_text_frame` and `text` are consulted. -/
structure Shape where
  has_text_frame : Bool
  text : String

/-- Index of the last occurrence of `c` in `l`, or `-1` (Python `str.rfind`). -/
def rfindIdx (l : List Char) (c : Char) : Int :=
  match l.reverse.findIdx? (fun x => x == c) with
  | none => -1
  | some j => (l.length : Int) - 1 - (j : Int)

/-- POSIX `os.path.splitext`, translated from CPython `genericpath._splitext`:
split at the last dot after the last separator, unless every character of
the base name before that dot is itself a dot (leading dots carry no
extension). -/
def splitext (p : String) : String × String :=
  let l := p.toList
  let sepIndex := rfindIdx l '/'
  let dotIndex := rfindIdx l '.'
  if sepIndex < dotIndex then
    if ((l.drop (sepIndex + 1).toNat).take (dotIndex - sepIndex - 1).toNat).any
        (fun ch => ch != '.') then
      (String.mk (l.take dotIndex.toNat), String.mk (l.drop dotIndex.toNat))
    else (p, "")
  else (p, "")

/-- POSIX `os.path.basename`: everything after the last separator. -/
def basename (p : String) : String :=
  String.mk (p.toList.drop ((rfindIdx p.toList '/') + 1).toNat)

/-- Python `str.lower` (ASCII range, which covers every mapped extension). -/
def strLower (s : String) : String :=
  String.mk (s.toList.map Char.toLower)

/-- Python `dict.get k` / `d[k]`: value at the (unique) matching key. -/
def dictGet {α : Type} : List (String × α) → String → Option α
  | [], _ => none
  | (k₁, v) :: rest, k => if k₁ = k then some v else dictGet rest k

/-- One step of Python dict construction: overwrite the value at an existing
key (keeping its position), otherwise append the binding at the end. -/
def dictInsert {α : Type} : List (String × α) → String → α → List (String × α)
  | [], k, v => [(k, v)]
  | (k₁, v₁) :: rest, k, v =>
    if k₁ = k then (k₁, v) :: rest else (k₁, v₁) :: dictInsert rest k v

/-- A Python dict comprehension over a list of key-value pairs, processed
left to right with last-wins overwriting. -/
def pyDictOf {α : Type} (pairs : List (String × α)) : List (String × α) :=
  pairs.foldl (fun d p => dictInsert d p.1 p.2) []

/-- `UnifiedFileReader.MIME_TYPES` (main.py lines 16-35), in source order. -/
def MIME_TYPES : List (String × String) :=
  [ (".txt", "text/plain"),
    (".json", "application/json"),
    (".yaml", "text/x-yaml"),
    (".yml", "text/x-yaml"),
    (".xml", "application/xml"),
    (".docx", "application/vnd.openxmlformats-officedocument.wordprocessingml.document"),
    (".xlsx", "application/vnd.openxmlformats-officedocument.spreadsheetml.sheet"),
    (".pptx", "application/vnd.openxmlformats-officedocument.presentationml.presentation"),
    (".csv", "text/csv"),
    (".pdf", "application/pdf"),
    (".png", "image/png"),
    (".jpeg", "image/jpeg"),
    (".jpg", "image/jpeg"),
    (".py", "text/x-python"),
    (".js", "text/javascript"),
    (".java", "text/x-java-source"),
    (".cpp", "text/x-c++src"),
    (".html", "text/html") ]

/-- The external world: the file system and the third-party libraries the
readers delegate to. Text parses are keyed by file content (the code reads
the file and hands the string to the parser); the binary document libraries
open the path themselves, so they are keyed by path. `none` from `textFile`
or `binFile` is `FileNotFoundError` from `open`; `none` from a document
library is that library failing to open the file. -/
structure Env where
  textFile : String → Option String
  binFile : String → Option (List Nat)
  jsonParse : String → Except String Value
  yamlParse : String → Except String Value
  xmlParse : String → Except String XmlElem
  docxParas : String → Option (List String)
  xlsxRows : String → Option (List (List Value))
  pptxSlides : String → Option (List (List Shape))
  csvParse : String → List (List String)
  pdfPages : String → Option (List String)
  b64encode : List Nat → String

/-- `read_text` (main.py lines 82-87). -/
def read_text (env : Env) (file_path : String) : Except PyErr FileRecord :=
  match env.textFile file_path with
  | none => Except.error PyErr.fileNotFound
  | some content =>
    Except.ok { file_name := basename file_path, content := Value.str content }

/-- `read_json` (main.py lines 89-94); a `json.JSONDecodeError` propagates
uncaught. -/
def read_json (env : Env) (file_path : String) : Except PyErr FileRecord :=
  match env.textFile file_path with
  | none => Except.error PyErr.fileNotFound
  | some content =>
    match env.jsonParse content with
    | Except.error e => Except.error (PyErr.libraryError e)
    | Except.ok v =>
      Except.ok { file_name := basename file_path, content := v }

/-- A Python `Optional[str]` as a JSON value (`None` serializes to null). -/
def textValue : Option String → Value
  | none => Value.null
  | some s => Value.str s

/-- `xml_to_dict` (main.py lines 111-114): one-level flatten
of the root into a dict built from the direct children only. -/
def xml_to_dict (element : XmlElem) : Value :=
  Value.obj [(element.tag,
    Value.obj (pyDictOf (element.children.map
      (fun child => (child.tag, textValue child.text)))))]

/-- `read_yaml_or_xml` (main.py lines 96-109): XML parse errors are caught
and re-raised as `ValueError`; YAML errors propagate uncaught; any other
`file_type` falls through and keeps the raw string. -/
def read_yaml_or_xml (env : Env) (file_path : String) (file_type : String) :
    Except PyErr FileRecord :=
  match env.textFile file_path with
  | none => Except.error PyErr.fileNotFound
  | some content =>
    if file_type = "application/xml" then
      match env.xmlParse content with
      | Except.ok root =>
        Except.ok { file_name := basename file_path, content := xml_to_dict root }
      | Except.error e =>
        Except.error (PyErr.valueError ("Error parsing XML: " ++ e))
    else if file_type = "text/x-yaml" then
      match env.yamlParse content with
      | Except.ok v =>
        Except.ok { file_name := basename file_path, content := v }
      | Except.error e => Except.error (PyErr.libraryError e)
    else
      Except.ok { file_name := basename file_path, content := Value.str content }

/-- `read_docx` (main.py lines 116-121). -/
def read_docx (env : Env) (file_path : String) : Except PyErr FileRecord :=
  match env.docxParas file_path with
  | none => Except.error (PyErr.libraryError file_path)
  | some paragraphs =>
    Except.ok { file_name := basename file_path,
                content := Value.str (String.intercalate "\n" paragraphs) }

/-- `read_excel` (main.py lines 123-129). -/
def read_excel (env : Env) (file_path : String) : Except PyErr FileRecord :=
  match env.xlsxRows file_path with
  | none => Except.error (PyErr.libraryError file_path)
  | some rows =>
    Except.ok { file_name := basename file_path,
                content := Value.arr (rows.map Value.arr) }

/-- `read_pptx` (main.py lines 131-142): per slide, the text of the shapes
that have a text frame. -/
def read_pptx (env : Env) (file_path : String) : Except PyErr FileRecord :=
  match env.pptxSlides file_path with
  | none => Except.error (PyErr.libraryError file_path)
  | some slides =>
    Except.ok { file_name := basename file_path,
                content := Value.arr (slides.map (fun slide =>
                  Value.arr ((slide.filter (fun sh => sh.has_text_frame)).map
                    (fun sh => Value.str sh.text)))) }

/-- `read_csv` (main.py lines 144-150). -/
def read_csv (env : Env) (file_path : String) : Except PyErr FileRecord :=
  match env.textFile file_path with
  | none => Except.error PyErr.fileNotFound
  | some content =>
    Except.ok { file_name := basename file_path,
                content := Value.arr ((env.csvParse content).map (fun row =>
                  Value.arr (row.map Value.str))) }

/-- `read_pdf` (main.py lines 152-160). -/
def read_pdf (env : Env) (file_path : String) : Except PyErr FileRecord :=
  match env.pdfPages file_path with
  | none => Except.error PyErr.fileNotFound
  | some pages =>
    Except.ok { file_name := basename file_path,
                content := Value.str (String.intercalate "\n" pages) }

/-- `read_image` (main.py lines 162-167). -/
def read_image (env : Env) (file_path : String) : Except PyErr FileRecord :=
  match env.binFile file_path with
  | none => Except.error PyErr.fileNotFound
  | some bytes =>
    Except.ok { file_name := basename file_path,
                content := Value.str (env.b64encode bytes) }

/-- The `if`/`elif` chain of `read_file` (main.py lines 45-80), from the
resolved MIME-type label down, final `else` included. -/
def dispatch (env : Env) (file_path : String) (file_type : String) :
    Except PyErr FileRecord :=
  if file_type ∈ ["text/plain", "text/x-python", "text/javascript",
      "text/x-java-source", "text/x-c++src", "text/html"] then
    read_text env file_path
  else if file_type = "application/json" then
    read_json env file_path
  else if file_type ∈ ["text/x-yaml", "application/xml"] then
    read_yaml_or_xml env file_path file_type
  else if file_type = "application/vnd.openxmlformats-officedocument.wordprocessingml.document" then
    read_docx env file_path
  else if file_type = "application/vnd.openxmlformats-officedocument.spreadsheetml.sheet" then
    read_excel env file_path
  else if file_type = "application/vnd.openxmlformats-officedocument.presentationml.presentation" then
    read_pptx env file_path
  else if file_type = "text/csv" then
    read_csv env file_path
  else if file_type = "application/pdf" then
    read_pdf env file_path
  else if file_type ∈ ["image/png", "image/jpeg"] then
    read_image env file_path
  else
    Except.error (PyErr.valueError ("Unsupported file type: " ++ file_type))

/-- `UnifiedFileReader.read_file` (main.py lines 37-80): lower-cased
`splitext` extension, `MIME_TYPES` lookup, then the handler chain. -/
def read_file (env : Env) (file_path : String) : Except PyErr FileRecord :=
  match dictGet MIME_TYPES (strLower (splitext file_path).2) with
  | none =>
    Except.error (PyErr.valueError
      ("Unsupported file type: " ++ strLower (splitext file_path).2))
  | some file_type => dispatch env file_path file_type

/-- True exactly when the value is a string (`isinstance(content, str)`). -/
def isString : Value → Bool
  | Value.str _ => true
  | _ => false

/-- A character at which Python `str.splitlines` breaks a line. -/
def isLineBreak (c : Char) : Bool :=
  c == '\n' || c == '\r' || c == '\x0b' || c == '\x0c' ||
  c == '\x1c' || c == '\x1d' || c == '\x1e' || c == '\x85' ||
  c == '\u2028' || c == '\u2029'

/-- Worker for `splitlines`: `acc` holds the current line reversed; a
trailing break produces no empty final line. -/
def splitlinesAux : List Char → List Char → List String
  | [], acc => if acc.isEmpty then [] else [String.mk acc.reverse]
  | '\r' :: '\n' :: rest, acc => String.mk acc.reverse :: splitlinesAux rest []
  | c :: rest, acc =>
    if isLineBreak c then String.mk acc.reverse :: splitlinesAux rest []
    else splitlinesAux rest (c :: acc)

/-- Python `str.splitlines` (universal newline splitting, `\r\n` counted as
a single break). -/
def splitlines (s : String) : List String :=
  splitlinesAux s.toList []

/-- `UnifiedFileReader.write_output` (main.py lines 169-182). The source
mutates `data["content"]` in place before serializing; the model returns
the record as the caller sees it after the call, paired with the JSON value
written to the output file (`json.dump`/`json.load` round-trip these values
exactly, so re-reading the output file yields that value). -/
def write_output (data : FileRecord) : FileRecord × Value :=
  let data :=
    match data.content with
    | Value.str s =>
      { data with content := Value.arr ((splitlines s).map Value.str) }
    | _ => data
  (data, Value.obj [("file_name", Value.str data.file_name),
                    ("content", data.content)])

/-- Python `dict[k]` lookup on a JSON object value. -/
def objGet : Value → String → Option Value
  | Value.obj fields, k => dictGet fields k
  | _, _ => none

/-- The conditions of the nine handler branches of `read_file`
(main.py lines 45-78), each the set of MIME-type labels it accepts, in
source order. -/
def dispatchBranches : List (List String) :=
  [ ["text/plain", "text/x-python", "text/javascript",
     "text/x-java-source", "text/x-c++src", "text/html"],
    ["application/json"],
    ["text/x-yaml", "application/xml"],
    ["application/vnd.openxmlformats-officedocument.wordprocessingml.document"],
    ["application/vnd.openxmlformats-officedocument.spreadsheetml.sheet"],
    ["application/vnd.openxmlformats-officedocument.presentationml.presentation"],
    ["text/csv"],
    ["application/pdf"],
    ["image/png", "image/jpeg"] ]

/-- Which branch of the `read_file` chain fires for a MIME-type label
(`none` = the final no-handler `else`), mirroring `dispatch`. -/
def dispatchBranch (file_type : String) : Option Nat :=
  if file_type ∈ ["text/plain", "text/x-python", "text/javascript",
      "text/x-java-source", "text/x-c++src", "text/html"] then some 0
  else if file_type = "application/json" then some 1
  else if file_type ∈ ["text/x-yaml", "application/xml"] then some 2
  else if file_type = "application/vnd.openxmlformats-officedocument.wordprocessingml.document" then some 3
  else if file_type = "application/vnd.openxmlformats-officedocument.spreadsheetml.sheet" then some 4
  else if file_type = "application/vnd.openxmlformats-officedocument.presentationml.presentation" then some 5
  else if file_type = "text/csv" then some 6
  else if file_type = "application/pdf" then some 7
  else if file_type ∈ ["image/png", "image/jpeg"] then some 8
  else none

/-- Modelled from the spec of claim C1: the extension as the claim's words
define it — the lower-cased substring after the last dot, dot included
(empty when the path has no dot). Kept separate from `splitext`, which is
what the code actually computes. -/
def extensionAfterLastDot (p : String) : String :=
  let l := p.toList
  let d := rfindIdx l '.'
  if 0 ≤ d then String.mk ((l.drop d.toNat).map Char.toLower) else ""

namespace Legacy

/-- What `open(path)` does in the legacy variant: succeed with the file
contents, raise `FileNotFoundError`, or raise some other exception. -/
inductive OpenResult where
  | ok (content : String) : OpenResult
  | notFound : OpenResult
  | failed (msg : String) : OpenResult

/-- `read_file` (one.py lines 1-9): contents on success, and the sentinel
message strings — ordinary `str` return values — on the caught exceptions. -/
def read_file (fs : String → OpenResult) (file_path : String) : String :=
  match fs file_path with
  | OpenResult.ok content => content
  | OpenResult.notFound => "File not found."
  | OpenResult.failed e => "An error occurred: " ++ e

end Legacy

/-- A sample XML root `<r><c>t</c></r>`. -/
def root0 : XmlElem := XmlElem.mk "r" [] none [XmlElem.mk "c" [] (some "t") []]

/-- A root with the same tag and the same direct-child `(tag, text)` surface
as `root0`, but carrying attributes and a grandchild that the flatten drops. -/
def rootX : XmlElem :=
  XmlElem.mk "r" [("a", "1")] none
    [XmlElem.mk "c" [("b", "2")] (some "t") [XmlElem.mk "g" [] (some "deep") []]]

/-- A small concrete environment used by the witnesses. -/
def env0 : Env where
  textFile := fun p =>
    if p = "dir/a.txt" then some "hello"
    else if p = "a.json" then some "{}"
    else if p = "b.xml" then some "<r><c>t</c></r>"
    else if p = "bad.xml" then some "<r>"
    else none
  binFile := fun _ => none
  jsonParse := fun s =>
    if s = "{}" then Except.ok (Value.obj []) else Except.error "Expecting value"
  yamlParse := fun _ => Except.ok Value.null
  xmlParse := fun s =>
    if s = "<r><c>t</c></r>" then Except.ok root0
    else Except.error "no element found: line 1, column 4"
  docxParas := fun _ => none
  xlsxRows := fun _ => none
  pptxSlides := fun _ => none
  csvParse := fun _ => []
  pdfPages := fun _ => none
  b64encode := fun _ => ""

/-- A legacy file system with one file whose contents happen to be the
legacy not-found sentinel text. -/
def fs0 : String → Legacy.OpenResult := fun p =>
  if p = "note.txt" then Legacy.OpenResult.ok "File not found."
  else Legacy.OpenResult.notFound

/-! ### Helper lemmas -/

theorem read_text_fname {env : Env} {p : String} {r : FileRecord}
    (h : read_text env p = Except.ok r) : r.file_name = basename p := by
  unfold read_text at h
  cases he : env.textFile p with
  | none => rw [he] at h; exact Except.noConfusion h
  | some c => rw [he] at h; cases h; rfl

theorem read_json_fname {env : Env} {p : String} {r : FileRecord}
    (h : read_json env p = Except.ok r) : r.file_name = basename p := by
  unfold read_json at h
  cases he : env.textFile p with
  | none => rw [he] at h; exact Except.noConfusion h
  | some c =>
    rw [he] at h
    dsimp only at h
    cases hp : env.jsonParse c with
    | error e => rw [hp] at h; exact Except.noConfusion h
    | ok v => rw [hp] at h; cases h; rfl

theorem read_yaml_or_xml_fname {env : Env} {p ft : String} {r : FileRecord}
    (h : read_yaml_or_xml env p ft = Except.ok r) : r.file_name = basename p := by
  unfold read_yaml_or_xml at h
  cases he : env.textFile p with
  | none => rw [he] at h; exact Except.noConfusion h
  | some c =>
    rw [he] at h
    dsimp only at h
    by_cases hx : ft = "application/xml"
    · rw [if_pos hx] at h
      cases hp : env.xmlParse c with
      | ok root => rw [hp] at h; cases h; rfl
      | error e => rw [hp] at h; exact Except.noConfusion h
    · rw [if_neg hx] at h
      by_cases hy : ft = "text/x-yaml"
      · rw [if_pos hy] at h
        cases hp : env.yamlParse c with
        | ok v => rw [hp] at h; cases h; rfl
        | error e => rw [hp] at h; exact Except.noConfusion h
      · rw [if_neg hy] at h; cases h; rfl

theorem read_docx_fname {env : Env} {p : String} {r : FileRecord}
    (h : read_docx env p = Except.ok r) : r.file_name = basename p := by
  unfold read_docx at h
  cases he : env.docxParas p with
  | none => rw [he] at h; exact Except.noConfusion h
  | some paras => rw [he] at h; cases h; rfl

theorem read_excel_fname {env : Env} {p : String} {r : FileRecord}
    (h : read_excel env p = Except.ok r) : r.file_name = basename p := by
  unfold read_excel at h
  cases he : env.xlsxRows p with
  | none => rw [he] at h; exact Except.noConfusion h
  | some rows => rw [he] at h; cases h; rfl

theorem read_pptx_fname {env : Env} {p : String} {r : FileRecord}
    (h : read_pptx env p = Except.ok r) : r.file_name = basename p := by
  unfold read_pptx at h
  cases he : env.pptxSlides p with
  | none => rw [he] at h; exact Except.noConfusion h
  | some slides => rw [he] at h; cases h; rfl

theorem read_csv_fname {env : Env} {p : String} {r : FileRecord}
    (h : read_csv env p = Except.ok r) : r.file_name = basename p := by
  unfold read_csv at h
  cases he : env.textFile p with
  | none => rw [he] at h; exact Except.noConfusion h
  | some c => rw [he] at h; cases h; rfl

theorem read_pdf_fname {env : Env} {p : String} {r : FileRecord}
    (h : read_pdf env p = Except.ok r) : r.file_name = basename p := by
  unfold read_pdf at h
  cases he : env.pdfPages p with
  | none => rw [he] at h; exact Except.noConfusion h
  | some pages => rw [he] at h; cases h; rfl

theorem read_image_fname {env : Env} {p : String} {r : FileRecord}
    (h : read_image env p = Except.ok r) : r.file_name = basename p := by
  unfold read_image at h
  cases he : env.binFile p with
  | none => rw [he] at h; exact Except.noConfusion h
  | some bytes => rw [he] at h; cases h; rfl

theorem dispatch_fname {env : Env} {p ft : String} {r : FileRecord}
    (h : dispatch env p ft = Except.ok r) : r.file_name = basename p := by
  unfold dispatch at h
  repeat' split at h
  all_goals first
    | exact read_text_fname h
    | exact read_json_fname h
    | exact read_yaml_or_xml_fname h
    | exact read_docx_fname h
    | exact read_excel_fname h
    | exact read_pptx_fname h
    | exact read_csv_fname h
    | exact read_pdf_fname h
    | exact read_image_fname h
    | exact Except.noConfusion h

/-- When the lower-cased extension is `".xml"`, the dispatcher hands the
path to `read_yaml_or_xml` with the XML MIME label. -/
theorem read_file_xml_eq (env : Env) (p : String)
    (h : strLower (splitext p).2 = ".xml") :
    read_file env p = read_yaml_or_xml env p "application/xml" := by
  unfold read_file
  rw [h]
  rfl

/-- The flatten reads nothing from a child except its tag and text. -/
theorem map_tag_text_congr (l1 l2 : List XmlElem)
    (h : l1.map (fun c => (c.tag, c.text)) = l2.map (fun c => (c.tag, c.text))) :
    l1.map (fun c => (c.tag, textValue c.text))
      = l2.map (fun c => (c.tag, textValue c.text)) := by
  have e1 := congrArg (List.map (fun p : String × Option String =>
      (p.1, textValue p.2))) h
  rw [List.map_map, List.map_map] at e1
  exact e1

/-- A successful `dictGet` returns one of the stored values. -/
theorem dictGet_mem {α : Type} (l : List (String × α)) (k : String) (v : α)
    (h : dictGet l k = some v) : v ∈ l.map Prod.snd := by
  induction l with
  | nil => exact Option.noConfusion h
  | cons p rest ih =>
    obtain ⟨k1, v1⟩ := p
    simp only [dictGet] at h
    by_cases hk : k1 = k
    · rw [if_pos hk] at h
      cases Option.some.inj h
      exact List.mem_cons_self _ _
    · rw [if_neg hk] at h
      exact List.mem_cons_of_mem _ (ih h)

/-! ### Claim theorems -/

/-- C1 (amended): for every input path whose lower-cased extension as
computed by `os.path.splitext` is absent from the FormatMapping, `read_file`
fails with an unsupported-type `ValueError` whose message names that
computed extension (which is empty when the base name's only dots are
leading or the last dot lies in a directory component), and it never
returns a (partial) record. -/
theorem c1_unsupported_ext (env : Env) (file_path : String)
    (h : dictGet MIME_TYPES (strLower (splitext file_path).2) = none) :
    read_file env file_path =
      Except.error (PyErr.valueError
        ("Unsupported file type: " ++ strLower (splitext file_path).2)) := by
  unfold read_file
  rw [h]

/-- C1 counterexample: for the path `".zip"` the claim's own notion of
extension (substring after the last dot, lower-cased) is `".zip"`, which is
absent from the mapping, yet the error message of the code names the empty
extension computed by `splitext`, not `".zip"`. -/
theorem c1_counterexample :
    extensionAfterLastDot ".zip" = ".zip"
    ∧ dictGet MIME_TYPES ".zip" = none
    ∧ read_file env0 ".zip" =
        Except.error (PyErr.valueError "Unsupported file type: ")
    ∧ "Unsupported file type: " ≠ "Unsupported file type: .zip" :=
  ⟨rfl, rfl, rfl, by decide⟩

/-- Witness for `c1_unsupported_ext` at the path `"a.zip"`. -/
theorem c1_witness :
    read_file env0 "a.zip" =
      Except.error (PyErr.valueError
        ("Unsupported file type: " ++ strLower (splitext "a.zip").2)) :=
  c1_unsupported_ext env0 "a.zip" rfl

/-- C2 counterexample: `write_output` mutates the caller's record in place;
after the call the record that held the string `"x\ny"` holds the list of
its lines instead, so the record is not unchanged. -/
theorem c2_counterexample :
    (write_output (FileRecord.mk "a.txt" (Value.str "x\ny"))).1.content
      = Value.arr [Value.str "x", Value.str "y"]
    ∧ (write_output (FileRecord.mk "a.txt" (Value.str "x\ny"))).1
        ≠ FileRecord.mk "a.txt" (Value.str "x\ny") := by
  refine ⟨rfl, fun h => ?_⟩
  exact Value.noConfusion (congrArg FileRecord.content h)

/-- C2 (amended): the text-to-lines transform is performed on the caller's
record itself, not on a copy: for every record whose content is the string
`s`, after `write_output` returns the caller's record has `content` equal
to the list of lines of `s` (the file name is untouched). -/
theorem c2_inplace (r : FileRecord) (s : String) (h : r.content = Value.str s) :
    (write_output r).1 =
      { file_name := r.file_name,
        content := Value.arr ((splitlines s).map Value.str) } := by
  obtain ⟨fn, c⟩ := r
  replace h : c = Value.str s := h
  subst h
  rfl

/-- Witness for `c2_inplace` at a record holding `"x\ny"`. -/
theorem c2_witness :
    (write_output (FileRecord.mk "a.txt" (Value.str "x\ny"))).1 =
      { file_name := "a.txt",
        content := Value.arr ((splitlines "x\ny").map Value.str) } :=
  c2_inplace (FileRecord.mk "a.txt" (Value.str "x\ny")) "x\ny" rfl

/-- C3 counterexample: on a missing path the legacy `read_file` does return
an ordinary result value — the sentinel string `"File not found."` — which
coincides with the result of successfully reading a file whose contents are
that very text, so the outcome is not a distinct not-found condition. -/
theorem c3_counterexample :
    fs0 "missing.txt" = Legacy.OpenResult.notFound
    ∧ Legacy.read_file fs0 "missing.txt" = "File not found."
    ∧ fs0 "note.txt" = Legacy.OpenResult.ok "File not found."
    ∧ Legacy.read_file fs0 "missing.txt" = Legacy.read_file fs0 "note.txt" :=
  ⟨rfl, rfl, rfl, rfl⟩

/-- C3 (amended): on a path that does not resolve to an existing file the
legacy `read_file` catches `FileNotFoundError` and returns the ordinary
sentinel string `"File not found."`; being a pure function of the file
system, repeated calls on the same missing path return the same string. -/
theorem c3_sentinel (fs : String → Legacy.OpenResult) (p : String)
    (h : fs p = Legacy.OpenResult.notFound) :
    Legacy.read_file fs p = "File not found." := by
  unfold Legacy.read_file
  rw [h]

/-- Witness for `c3_sentinel` on the missing path of `fs0`. -/
theorem c3_witness : Legacy.read_file fs0 "missing.txt" = "File not found." :=
  c3_sentinel fs0 "missing.txt" rfl

/-- C5: exporting a record with string content and re-reading the output
JSON yields `content` equal to the original string split on line boundaries
(universal newline splitting); exporting non-string content leaves it
unchanged in the output, and a repeated export produces the same output. -/
theorem c5_export_roundtrip :
    (∀ (r : FileRecord) (s : String), r.content = Value.str s →
       objGet (write_output r).2 "content"
         = some (Value.arr ((splitlines s).map Value.str)))
    ∧ (∀ r : FileRecord, isString r.content = false →
         objGet (write_output r).2 "content" = some r.content
         ∧ (write_output (write_output r).1).2 = (write_output r).2) := by
  constructor
  · intro r s h
    obtain ⟨fn, c⟩ := r
    replace h : c = Value.str s := h
    subst h
    rfl
  · intro r h
    obtain ⟨fn, c⟩ := r
    replace h : isString c = false := h
    cases c with
    | null => exact ⟨rfl, rfl⟩
    | bool b => exact ⟨rfl, rfl⟩
    | num n => exact ⟨rfl, rfl⟩
    | str s => exact Bool.noConfusion h
    | arr xs => exact ⟨rfl, rfl⟩
    | obj fields => exact ⟨rfl, rfl⟩

/-- Witness for `c5_export_roundtrip`: a string record and an array record. -/
theorem c5_witness :
    objGet (write_output (FileRecord.mk "a.txt" (Value.str "x\ny"))).2 "content"
      = some (Value.arr ((splitlines "x\ny").map Value.str))
    ∧ objGet (write_output (FileRecord.mk "a.json" (Value.arr []))).2 "content"
        = some (Value.arr [])
    ∧ (write_output (write_output (FileRecord.mk "a.json" (Value.arr []))).1).2
        = (write_output (FileRecord.mk "a.json" (Value.arr []))).2 :=
  ⟨c5_export_roundtrip.1 (FileRecord.mk "a.txt" (Value.str "x\ny")) "x\ny" rfl,
   (c5_export_roundtrip.2 (FileRecord.mk "a.json" (Value.arr [])) rfl).1,
   (c5_export_roundtrip.2 (FileRecord.mk "a.json" (Value.arr [])) rfl).2⟩

/-- C10: a path whose base name starts with a dot and contains no other dot
is treated as extension-less by `splitext`, so although the literal suffix
`".txt"` is a mapped extension, `read_file` on the path `".txt"` fails with
an unsupported-type error naming the empty extension. -/
theorem c10_dot_leading_no_ext :
    splitext ".txt" = (".txt", "")
    ∧ dictGet MIME_TYPES ".txt" = some "text/plain"
    ∧ ∀ env : Env, read_file env ".txt" =
        Except.error (PyErr.valueError "Unsupported file type: ") :=
  ⟨by decide, rfl, fun _ => rfl⟩

/-- C4: whenever `read_file` returns a record — in particular for every
registered extension on a well-formed input — the record's `file_name` is
the base name of the input path, never the full path. -/
theorem c4_filename_basename (env : Env) (file_path : String) (r : FileRecord)
    (h : read_file env file_path = Except.ok r) :
    r.file_name = basename file_path := by
  unfold read_file at h
  cases hm : dictGet MIME_TYPES (strLower (splitext file_path).2) with
  | none => rw [hm] at h; exact Except.noConfusion h
  | some ft =>
    rw [hm] at h
    dsimp only at h
    exact dispatch_fname h

/-- Witness for `c4_filename_basename` on a `.txt` file under a directory. -/
theorem c4_witness :
    (FileRecord.mk "a.txt" (Value.str "hello")).file_name = basename "dir/a.txt" :=
  c4_filename_basename env0 "dir/a.txt" (FileRecord.mk "a.txt" (Value.str "hello")) rfl

/-- C6: on well-formed XML input, `read_file` returns the one-level flatten
built from the root's direct children only; two roots agreeing on the tag
and on the direct children's `(tag, text)` pairs flatten identically, so
grandchildren and attributes are dropped. -/
theorem c6_xml_flatten (env : Env) (path raw : String) (root : XmlElem)
    (hext : strLower (splitext path).2 = ".xml")
    (hraw : env.textFile path = some raw)
    (hparse : env.xmlParse raw = Except.ok root) :
    read_file env path =
      Except.ok { file_name := basename path, content := xml_to_dict root }
    ∧ ∀ root2 : XmlElem, root.tag = root2.tag →
        root.children.map (fun c => (c.tag, c.text))
          = root2.children.map (fun c => (c.tag, c.text)) →
        xml_to_dict root = xml_to_dict root2 := by
  constructor
  · rw [read_file_xml_eq env path hext]
    unfold read_yaml_or_xml
    rw [hraw]
    dsimp only
    rw [if_pos rfl, hparse]
  · intro root2 htag hmap
    unfold xml_to_dict
    rw [htag, map_tag_text_congr root.children root2.children hmap]

/-- Witness for `c6_xml_flatten`: `env0`'s file `"b.xml"` parses to `root0`;
`rootX` has the same direct-child surface but extra attributes and a
grandchild, and flattens identically. -/
theorem c6_witness :
    read_file env0 "b.xml" =
      Except.ok { file_name := "b.xml", content := xml_to_dict root0 }
    ∧ xml_to_dict root0 = xml_to_dict rootX :=
  ⟨(c6_xml_flatten env0 "b.xml" "<r><c>t</c></r>" root0 rfl rfl rfl).1,
   (c6_xml_flatten env0 "b.xml" "<r><c>t</c></r>" root0 rfl rfl rfl).2 rootX rfl rfl⟩

/-- C7: on malformed XML input, `read_file` fails with a `ValueError` whose
message names the underlying parse error, and the foreign
`ET.ParseError` never escapes unwrapped. -/
theorem c7_xml_parse_error (env : Env) (path raw e : String)
    (hext : strLower (splitext path).2 = ".xml")
    (hraw : env.textFile path = some raw)
    (hparse : env.xmlParse raw = Except.error e) :
    read_file env path =
      Except.error (PyErr.valueError ("Error parsing XML: " ++ e))
    ∧ ∀ m : String, read_file env path ≠ Except.error (PyErr.parseError m) := by
  have h1 : read_file env path =
      Except.error (PyErr.valueError ("Error parsing XML: " ++ e)) := by
    rw [read_file_xml_eq env path hext]
    unfold read_yaml_or_xml
    rw [hraw]
    dsimp only
    rw [if_pos rfl, hparse]
  refine ⟨h1, fun m hm => ?_⟩
  rw [h1] at hm
  exact PyErr.noConfusion (Except.error.inj hm)

/-- Witness for `c7_xml_parse_error` on `env0`'s malformed file `"bad.xml"`. -/
theorem c7_witness :
    read_file env0 "bad.xml" =
      Except.error (PyErr.valueError
        ("Error parsing XML: " ++ "no element found: line 1, column 4"))
    ∧ read_file env0 "bad.xml" ≠ Except.error (PyErr.parseError "m") :=
  ⟨(c7_xml_parse_error env0 "bad.xml" "<r>" "no element found: line 1, column 4"
      rfl rfl rfl).1,
   (c7_xml_parse_error env0 "bad.xml" "<r>" "no element found: line 1, column 4"
      rfl rfl rfl).2 "m"⟩

/-- C8: every MIME-type label stored in the mapping is accepted by exactly
one branch of the `read_file` handler chain; consequently, whenever the
extension lookup succeeds, `read_file` runs the handler chain and the final
no-handler branch cannot fire. -/
theorem c8_dispatch_total :
    (∀ p ∈ MIME_TYPES, dispatchBranches.countP (fun b => b.contains p.2) = 1)
    ∧ (∀ p ∈ MIME_TYPES, dispatchBranch p.2 ≠ none)
    ∧ (∀ (env : Env) (path ft : String),
        dictGet MIME_TYPES (strLower (splitext path).2) = some ft →
        read_file env path = dispatch env path ft ∧ dispatchBranch ft ≠ none) := by
  refine ⟨by decide, by decide, ?_⟩
  intro env path ft h
  constructor
  · unfold read_file
    rw [h]
  · have hm : ft ∈ MIME_TYPES.map Prod.snd := dictGet_mem _ _ _ h
    have hall : ∀ v ∈ MIME_TYPES.map Prod.snd, dispatchBranch v ≠ none := by decide
    exact hall ft hm

/-- Witness for `c8_dispatch_total` at the `"text/plain"` entry and at a
concrete successful lookup. -/
theorem c8_witness :
    dispatchBranches.countP (fun b => b.contains "text/plain") = 1
    ∧ dispatchBranch "text/plain" ≠ none
    ∧ (read_file env0 "a.json" = dispatch env0 "a.json" "application/json"
        ∧ dispatchBranch "application/json" ≠ none) :=
  ⟨c8_dispatch_total.1 (".txt", "text/plain") (by decide),
   c8_dispatch_total.2.1 (".txt", "text/plain") (by decide),
   c8_dispatch_total.2.2 env0 "a.json" "application/json" rfl⟩

/-- The value a Python dict lookup sees for a key, in terms of the raw pair
sequence the dict was built from: the value of the last pair with that key. -/
def lookupLast {α : Type} : List (String × α) → String → Option α
  | [], _ => none
  | (k1, v) :: rest, q =>
    match lookupLast rest q with
    | some w => some w
    | none => if k1 = q then some v else none

theorem dictGet_insert {α : Type} (d : List (String × α)) (k q : String) (v : α) :
    dictGet (dictInsert d k v) q = if k = q then some v else dictGet d q := by
  induction d with
  | nil => simp [dictInsert, dictGet]
  | cons p rest ih =>
    obtain ⟨k1, v1⟩ := p
    by_cases h1 : k1 = k
    · subst h1
      by_cases h2 : k1 = q <;> simp [dictInsert, dictGet, h2]
    · by_cases h2 : k1 = q
      · have h3 : ¬(k = q) := fun hq => h1 (h2.trans hq.symm)
        have h4 : ¬(q = k) := fun hq => h3 hq.symm
        simp [dictInsert, dictGet, h1, h2, h3, h4]
      · simp [dictInsert, dictGet, h1, h2, ih]

theorem dictGet_foldl_insert {α : Type} (pairs : List (String × α))
    (d : List (String × α)) (q : String) :
    dictGet (pairs.foldl (fun d p => dictInsert d p.1 p.2) d) q
      = match lookupLast pairs q with
        | some w => some w
        | none => dictGet d q := by
  induction pairs generalizing d with
  | nil => simp [lookupLast]
  | cons p rest ih =>
    obtain ⟨k1, v1⟩ := p
    simp only [List.foldl_cons]
    rw [ih]
    simp only [lookupLast]
    cases hr : lookupLast rest q with
    | some w => rfl
    | none =>
      simp only [dictGet_insert]
      by_cases h2 : k1 = q <;> simp [h2]

theorem dictGet_pyDictOf {α : Type} (pairs : List (String × α)) (q : String) :
    dictGet (pyDictOf pairs) q = lookupLast pairs q := by
  unfold pyDictOf
  rw [dictGet_foldl_insert]
  cases hl : lookupLast pairs q <;> simp [dictGet]

theorem find?_append_match {α : Type} (p : α → Bool) (l1 l2 : List α) :
    List.find? p (l1 ++ l2)
      = match List.find? p l1 with
        | some x => some x
        | none => List.find? p l2 := by
  induction l1 with
  | nil => rfl
  | cons a t1 ih =>
    simp only [List.cons_append, List.find?]
    cases p a <;> simp [ih]

theorem lookupLast_map_children (l : List XmlElem) (t : String) :
    lookupLast (l.map (fun c => (c.tag, textValue c.text))) t
      = (List.find? (fun c => c.tag == t) l.reverse).map
          (fun c => textValue c.text) := by
  induction l with
  | nil => rfl
  | cons c rest ih =>
    simp only [List.map_cons, lookupLast, List.reverse_cons]
    rw [find?_append_match]
    cases hf : List.find? (fun c => c.tag == t) rest.reverse with
    | some x =>
      rw [hf] at ih
      rw [ih]
      simp
    | none =>
      rw [hf] at ih
      rw [ih]
      by_cases ht : c.tag = t
      · simp [List.find?, ht]
      · have hb : (c.tag == t) = false := by simp [ht]
        simp [List.find?, hb, ht]

/-- C9: in the one-level XML flatten, a repeated direct-child tag keeps only
the last such child's text: the inner dict of `xml_to_dict` maps a tag `t`
to the text of the last direct child tagged `t`, silently overwriting the
earlier ones. -/
theorem c9_last_child_wins (e : XmlElem) (t : String) :
    xml_to_dict e
      = Value.obj [(e.tag, Value.obj (pyDictOf (e.children.map
          (fun c => (c.tag, textValue c.text)))))]
    ∧ dictGet (pyDictOf (e.children.map (fun c => (c.tag, textValue c.text)))) t
        = (List.find? (fun c => c.tag == t) e.children.reverse).map
            (fun c => textValue c.text) := by
  refine ⟨rfl, ?_⟩
  rw [dictGet_pyDictOf]
  exact lookupLast_map_children e.children t

end DocReader
